import Mathlib

/-
Shallow embedding of the sandbox lifecycle manager in
backend/sandbox/sandbox.py.

The remote provider (Daytona), the directory store (the user_sandboxes
table) and the in-sandbox session interface are external collaborators;
they are modelled as oracles: functions from the arguments of each remote
call to the call's outcome.  Each embedded operation returns its Python
return value (or the exception it raises) as an Except, together with the
ordered trace of external calls it issued and, where it mutates the
directory, the resulting table.  Timestamps are modelled as integers
(seconds); an ISO timestamp string is well formed in the model iff it is a
decimal integer, and parsing a malformed string models the ValueError that
datetime.fromisoformat raises.
-/

/-- Provider-reported lifecycle state of a remote sandbox
(daytona WorkspaceState as used by the code: only ARCHIVED and STOPPED are
inspected; everything else is treated alike). -/
inductive WState
  | running
  | stopped
  | archived
  | unknown
deriving DecidableEq, Repr

/-- A remote sandbox as the code reads it: its provider id and state. -/
structure RSandbox where
  id : String
  state : WState
deriving DecidableEq, Repr

/-- Exceptions raised by external calls.  The code treats all exceptions
uniformly (bare except Exception), so the constructors only serve to tell
scenarios apart in theorems. -/
inductive Err
  | notFound (sandbox_id : String)
  | providerError (msg : String)
deriving DecidableEq, Repr

/-- A row of the user_sandboxes table.  sandbox_id is an Option because the
code guards it with Python truthiness (a missing, None or empty value is
falsy); last_active_at is the stored ISO string, with the empty string
standing for an absent field (the code reads it via .get with default ''). -/
structure Row where
  user_id : String
  sandbox_id : Option String
  sandbox_pass : String
  last_active_at : String
deriving DecidableEq, Repr

/-- Parameters of the daytona.create call in create_sandbox. -/
structure CreateParams where
  image : String
  isPublic : Bool
  env_vars : List (String × String)
  ports : List Nat
  cpu : Nat
  memory : Nat
  disk : Nat
deriving DecidableEq, Repr

/-- External calls issued by the embedded operations, in program order. -/
inductive Ev
  | fetch (sandbox_id : String)
  | start (sandbox_id : String)
  | create (p : CreateParams)
  | createSession (sandbox_id session_id : String)
  | execSession (sandbox_id session_id command : String)
  | spawnCleanup
  | updateLastActive (user_id now : String)
  | upsert (user_id sandbox_id sandbox_pass now : String)
  | deleteRemote (sandbox_id : String) (ok : Bool)
  | deleteRecord (user_id : String)
deriving DecidableEq, Repr

/-- Oracle giving the outcome of every external call a single run may
issue.  fetch is daytona.get_current_sandbox on the first call for an id,
refetch the second call (after a start); startRes is daytona.start;
createRes is daytona.create; createSessionRes and execRes are the session
interface used by start_supervisord_session. -/
structure Provider where
  fetch : String → Except Err RSandbox
  refetch : String → Except Err RSandbox
  startRes : String → Except Err Unit
  createRes : CreateParams → Except Err RSandbox
  createSessionRes : String → String → Except Err Unit
  execRes : String → String → String → Except Err Unit

/-- Python truthiness of the sandbox_id field: None, missing and the empty
string are falsy. -/
def truthy : Option String → Bool
  | none => false
  | some s => !(s == "")

/-- Value of a decimal digit character, none otherwise. -/
def digitVal (c : Char) : Option Nat :=
  if 48 ≤ c.toNat ∧ c.toNat ≤ 57 then some (c.toNat - 48) else none

/-- Fold a non-empty digit string into a number; none on any non-digit. -/
def parseDigitsAux : List Char → Nat → Option Nat
  | [], acc => some acc
  | c :: cs, acc =>
    match digitVal c with
    | some d => parseDigitsAux cs (acc * 10 + d)
    | none => none

/-- Model of datetime.fromisoformat on the stored last_active_at string: a
timestamp string is well formed in the model iff it is a non-empty decimal
numeral, and none models the ValueError raised on a malformed (or empty)
string. -/
def fromisoformat (s : String) : Option Int :=
  match s.data with
  | [] => none
  | c :: cs => (parseDigitsAux (c :: cs) 0).map Int.ofNat

/-- Seconds in a day, for the timedelta(days=...) cutoff arithmetic. -/
def secondsPerDay : Int := 86400

/-- Outcome of the sweep loop: user_ids whose rows were deleted, the trace
of deletion calls, and whether an exception escaped the per-record handler
(reaching the whole-sweep handler and ending the loop early). -/
structure SweepOut where
  deleted : List String
  trace : List Ev
  escaped : Bool
deriving DecidableEq, Repr

/-- The for-loop of cleanup_inactive_user_sandboxes.  delOk says, per
sandbox id, whether the fetch-and-delete of the remote sandbox succeeds
(both sit inside the per-record try).  A row with falsy sandbox_id is
skipped.  The timestamp parse sits outside the per-record try, so a parse
failure ends the loop: no later row is examined. -/
def cleanupLoop (delOk : String → Bool) (cutoff : Int) : List Row → SweepOut
  | [] => ⟨[], [], false⟩
  | r :: rs =>
    if truthy r.sandbox_id then
      match fromisoformat r.last_active_at with
      | none => ⟨[], [], true⟩
      | some t =>
        if t < cutoff then
          let sid := r.sandbox_id.getD ""
          let rest := cleanupLoop delOk cutoff rs
          if delOk sid then
            ⟨r.user_id :: rest.deleted,
             Ev.deleteRemote sid true :: Ev.deleteRecord r.user_id :: rest.trace,
             rest.escaped⟩
          else
            ⟨rest.deleted, Ev.deleteRemote sid false :: rest.trace, rest.escaped⟩
        else cleanupLoop delOk cutoff rs
    else cleanupLoop delOk cutoff rs

/-- cleanup_inactive_user_sandboxes: enumerate the table and reclaim stale
rows.  The whole body is wrapped in a try that logs and swallows every
exception, so the caller never sees an error: the escaped flag of the loop
is dropped and the function returns the deletions performed so far. -/
def cleanup_inactive_user_sandboxes (delOk : String → Bool) (now : Int)
    (max_inactive_days : Int) (db : List Row) : List String × List Ev :=
  let out := cleanupLoop delOk (now - secondsPerDay * max_inactive_days) db
  (out.deleted, out.trace)

/-- The table after the sweep: rows whose user_id was deleted are gone. -/
def applyDeletes (db : List Row) (deleted : List String) : List Row :=
  db.filter (fun r => !(deleted.contains r.user_id))

/-- Fixed session name used by start_supervisord_session. -/
def sessionName : String := "supervisord-session"

/-- Fixed command executed by start_supervisord_session. -/
def supervisordCommand : String :=
  "exec /usr/bin/supervisord -n -c /etc/supervisor/conf.d/supervisord.conf"

/-- start_supervisord_session: create the named session, then execute the
supervisord command in it.  Any exception from either call is logged and
re-raised; there is no special handling of an already-existing session. -/
def start_supervisord_session (o : Provider) (sb : RSandbox) :
    Except Err Unit × List Ev :=
  match o.createSessionRes sb.id sessionName with
  | .error e => (.error e, [Ev.createSession sb.id sessionName])
  | .ok _ =>
    match o.execRes sb.id sessionName supervisordCommand with
    | .error e =>
      (.error e, [Ev.createSession sb.id sessionName,
                  Ev.execSession sb.id sessionName supervisordCommand])
    | .ok _ =>
      (.ok (), [Ev.createSession sb.id sessionName,
                Ev.execSession sb.id sessionName supervisordCommand])

/-- Fixed image passed to daytona.create. -/
def sandboxImage : String := "adamcohenhillel/kortix-suna:0.0.20"

/-- Fixed port list passed to daytona.create. -/
def sandboxPorts : List Nat := [6080, 5900, 5901, 9222, 8080, 8002]

/-- Fixed environment passed to daytona.create; the caller-supplied
password is passed in as VNC_PASSWORD, the sandbox access secret. -/
def sandboxEnvVars (password : String) : List (String × String) :=
  [("CHROME_PERSISTENT_SESSION", "true"),
   ("RESOLUTION", "1024x768x24"),
   ("RESOLUTION_WIDTH", "1024"),
   ("RESOLUTION_HEIGHT", "768"),
   ("VNC_PASSWORD", password),
   ("ANONYMIZED_TELEMETRY", "false"),
   ("CHROME_PATH", ""),
   ("CHROME_USER_DATA", ""),
   ("CHROME_DEBUGGING_PORT", "9222"),
   ("CHROME_DEBUGGING_HOST", "localhost"),
   ("CHROME_CDP", "")]

/-- The full CreateSandboxParams built by create_sandbox: fixed image,
fixed port set, fixed resource shape (cpu 2, memory 4, disk 5), public,
with the password as the only varying field. -/
def createParamsFor (password : String) : CreateParams :=
  ⟨sandboxImage, true, sandboxEnvVars password, sandboxPorts, 2, 4, 5⟩

/-- create_sandbox: when a db handle is given, a cleanup sweep is spawned
fire-and-forget (recorded as an event, its interleaving not modelled);
then daytona.create is called with the fixed parameters, and on success
the supervisord session is bootstrapped.  Exceptions from create or from
the bootstrap propagate to the caller. -/
def create_sandbox (o : Provider) (password : String) (withDb : Bool) :
    Except Err RSandbox × List Ev :=
  let pre : List Ev := if withDb then [Ev.spawnCleanup] else []
  match o.createRes (createParamsFor password) with
  | .error e => (.error e, pre ++ [Ev.create (createParamsFor password)])
  | .ok sb =>
    match start_supervisord_session o sb with
    | (.error e, tr) =>
      (.error e, pre ++ Ev.create (createParamsFor password) :: tr)
    | (.ok _, tr) =>
      (.ok sb, pre ++ Ev.create (createParamsFor password) :: tr)

/-- The states on which get_or_start_sandbox issues a start request. -/
def needsStart : WState → Bool
  | .archived => true
  | .stopped => true
  | _ => false

/-- get_or_start_sandbox: fetch the sandbox by id; if ARCHIVED or STOPPED,
start it, fetch it again, and bootstrap the supervisord session; if
running, return it as is.  Every exception (fetch failure included) is
logged and re-raised to the caller. -/
def get_or_start_sandbox (o : Provider) (sandbox_id : String) :
    Except Err RSandbox × List Ev :=
  match o.fetch sandbox_id with
  | .error e => (.error e, [Ev.fetch sandbox_id])
  | .ok sb =>
    if needsStart sb.state then
      match o.startRes sandbox_id with
      | .error e => (.error e, [Ev.fetch sandbox_id, Ev.start sandbox_id])
      | .ok _ =>
        match o.refetch sandbox_id with
        | .error e =>
          (.error e, [Ev.fetch sandbox_id, Ev.start sandbox_id,
                      Ev.fetch sandbox_id])
        | .ok sb2 =>
          match start_supervisord_session o sb2 with
          | (.error e, tr) =>
            (.error e,
             Ev.fetch sandbox_id :: Ev.start sandbox_id ::
               Ev.fetch sandbox_id :: tr)
          | (.ok _, tr) =>
            (.ok sb2,
             Ev.fetch sandbox_id :: Ev.start sandbox_id ::
               Ev.fetch sandbox_id :: tr)
    else (.ok sb, [Ev.fetch sandbox_id])

/-- Refresh of last_active_at on the row keyed by uid (the update call on
the table, which touches every row whose user_id matches). -/
def touchRow (uid now : String) (r : Row) : Row :=
  if r.user_id == uid then ⟨r.user_id, r.sandbox_id, r.sandbox_pass, now⟩
  else r

/-- Upsert keyed on user_id: overwrite every matching row, append if none
matches (last-writer-wins, as the supabase upsert behaves). -/
def upsertDb (db : List Row) (nr : Row) : List Row :=
  if db.any (fun r => r.user_id == nr.user_id) then
    db.map (fun r => if r.user_id == nr.user_id then nr else r)
  else db ++ [nr]

/-- The creation path at the bottom of get_user_sandbox: create a sandbox
(passing the db handle, so a cleanup task is spawned), and on success
upsert the new row with the new sandbox id, the fresh password and the
current timestamp.  pre is the trace already issued before falling
through. -/
def createPathFor (o : Provider) (db : List Row) (uid newPass now : String)
    (pre : List Ev) : Except Err (RSandbox × String) × List Ev × List Row :=
  match create_sandbox o newPass true with
  | (.error e, tr) => (.error e, pre ++ tr, db)
  | (.ok sb, tr) =>
    (.ok (sb, newPass),
     pre ++ tr ++ [Ev.upsert uid sb.id newPass now],
     upsertDb db ⟨uid, some sb.id, newPass, now⟩)

/-- get_user_sandbox (the resolve_sandbox operation): look the user up; if
a row with a truthy sandbox_id exists, run get_or_start_sandbox on it and,
on success, refresh last_active_at and return the sandbox with the stored
password.  On ANY exception from get_or_start_sandbox, and likewise when
no usable row exists, fall through to the creation path with a fresh
password newPass (str(uuid.uuid4()) in the code). -/
def get_user_sandbox (o : Provider) (db : List Row) (uid newPass now : String) :
    Except Err (RSandbox × String) × List Ev × List Row :=
  match (db.filter (fun r => r.user_id == uid)).head? with
  | some r =>
    if truthy r.sandbox_id then
      match get_or_start_sandbox o (r.sandbox_id.getD "") with
      | (.ok sb, tr) =>
        (.ok (sb, r.sandbox_pass),
         tr ++ [Ev.updateLastActive uid now],
         db.map (touchRow uid now))
      | (.error _, tr) => createPathFor o db uid newPass now tr
    else createPathFor o db uid newPass now []
  | none => createPathFor o db uid newPass now []

/-- Count of trace events satisfying p. -/
def countEv (p : Ev → Bool) (tr : List Ev) : Nat :=
  (tr.filter p).length

/-- Recognizer for create calls. -/
def isCreateEv : Ev → Bool
  | Ev.create _ => true
  | _ => false

/-- Recognizer for start calls. -/
def isStartEv : Ev → Bool
  | Ev.start _ => true
  | _ => false

/-- Recognizer for fetch calls. -/
def isFetchEv : Ev → Bool
  | Ev.fetch _ => true
  | _ => false

/-- Recognizer for upsert calls. -/
def isUpsertEv : Ev → Bool
  | Ev.upsert _ _ _ _ => true
  | _ => false

/-- Recognizer for bootstrap invocations (session creation). -/
def isBootstrapEv : Ev → Bool
  | Ev.createSession _ _ => true
  | _ => false

/-- Whether a row is stale at the given cutoff: its timestamp parses and is
strictly older. -/
def staleAt (cutoff : Int) (r : Row) : Bool :=
  match fromisoformat r.last_active_at with
  | some t => t < cutoff
  | none => false

/-- Trace checker: armed records whether the immediately preceding event
was a successful remote-sandbox deletion; a directory-record deletion is
admitted only when armed.  So guardedFrom false tr holds iff every
deleteRecord in tr immediately follows a deleteRemote that succeeded: the
remote deletion is issued and completes strictly before the record
deletion, and no record deletion happens after a failed remote one. -/
def guardedFrom (armed : Bool) : List Ev → Bool
  | [] => true
  | Ev.deleteRemote _ ok :: rest => guardedFrom ok rest
  | Ev.deleteRecord _ :: rest => armed && guardedFrom false rest
  | _ :: rest => guardedFrom false rest

/-- Helper: touching rows does not change any sandbox_id. -/
theorem touchRow_sandbox_id (uid now : String) (r : Row) :
    (touchRow uid now r).sandbox_id = r.sandbox_id := by
  unfold touchRow
  split <;> rfl

/-- Helper: touching rows does not change any sandbox_pass. -/
theorem touchRow_sandbox_pass (uid now : String) (r : Row) :
    (touchRow uid now r).sandbox_pass = r.sandbox_pass := by
  unfold touchRow
  split <;> rfl

/-- C2: for a user with no directory record, get_user_sandbox creates
exactly one remote sandbox with the fixed image, port set and resource
shape and the fresh password newPass passed in as VNC_PASSWORD, bootstraps
it exactly once, issues exactly one upsert, and the final table is the
upsert of a row carrying the created sandbox's id, that password and the
current timestamp. -/
theorem resolve_no_record_creates_once
    (o : Provider) (db : List Row) (uid newPass now : String) (sb : RSandbox)
    (hnone : db.filter (fun r => r.user_id == uid) = [])
    (hcreate : o.createRes (createParamsFor newPass) = .ok sb)
    (hsess : o.createSessionRes sb.id sessionName = .ok ())
    (hexec : o.execRes sb.id sessionName supervisordCommand = .ok ()) :
    (get_user_sandbox o db uid newPass now).1 = .ok (sb, newPass) ∧
    countEv isCreateEv (get_user_sandbox o db uid newPass now).2.1 = 1 ∧
    countEv isBootstrapEv (get_user_sandbox o db uid newPass now).2.1 = 1 ∧
    countEv isUpsertEv (get_user_sandbox o db uid newPass now).2.1 = 1 ∧
    Ev.create (createParamsFor newPass) ∈ (get_user_sandbox o db uid newPass now).2.1 ∧
    Ev.upsert uid sb.id newPass now ∈ (get_user_sandbox o db uid newPass now).2.1 ∧
    (get_user_sandbox o db uid newPass now).2.2 =
      upsertDb db ⟨uid, some sb.id, newPass, now⟩ := by
  simp [get_user_sandbox, hnone, createPathFor, create_sandbox, hcreate,
        start_supervisord_session, hsess, hexec, countEv, isCreateEv,
        isBootstrapEv, isUpsertEv]

/-- C2 witness. -/
theorem resolve_no_record_creates_once_witness :
    ([] : List Row).filter (fun r => r.user_id == "u1") = [] ∧
    (Provider.mk (fun s => .error (Err.notFound s)) (fun s => .error (Err.notFound s))
      (fun _ => .ok ()) (fun _ => .ok ⟨"S1", WState.running⟩)
      (fun _ _ => .ok ()) (fun _ _ _ => .ok ())).createRes
        (createParamsFor "p1") = .ok ⟨"S1", WState.running⟩ ∧
    (get_user_sandbox
      (Provider.mk (fun s => .error (Err.notFound s)) (fun s => .error (Err.notFound s))
        (fun _ => .ok ()) (fun _ => .ok ⟨"S1", WState.running⟩)
        (fun _ _ => .ok ()) (fun _ _ _ => .ok ()))
      [] "u1" "p1" "t1").1 = .ok (⟨"S1", WState.running⟩, "p1") := by
  refine ⟨rfl, rfl, ?_⟩
  exact (resolve_no_record_creates_once
    (Provider.mk (fun s => .error (Err.notFound s)) (fun s => .error (Err.notFound s))
      (fun _ => .ok ()) (fun _ => .ok ⟨"S1", WState.running⟩)
      (fun _ _ => .ok ()) (fun _ _ _ => .ok ()))
    [] "u1" "p1" "t1" ⟨"S1", WState.running⟩ rfl rfl rfl rfl).1

/-- C7: for a user whose recorded sandbox the provider reports as running,
get_user_sandbox issues exactly one fetch and nothing else except the
last_active_at refresh: no create, no start, no upsert; the final table is
the original with only that user's last_active_at replaced, and the stored
password is what is returned. -/
theorem resolve_running_only_touches
    (o : Provider) (db : List Row) (uid now newPass : String) (r : Row)
    (sid : String) (sb : RSandbox)
    (hr : (db.filter (fun x => x.user_id == uid)).head? = some r)
    (hsid : r.sandbox_id = some sid)
    (hne : sid ≠ "")
    (hfetch : o.fetch sid = .ok sb)
    (hrun : sb.state = WState.running) :
    (get_user_sandbox o db uid newPass now).1 = .ok (sb, r.sandbox_pass) ∧
    (get_user_sandbox o db uid newPass now).2.1 =
      [Ev.fetch sid, Ev.updateLastActive uid now] ∧
    (get_user_sandbox o db uid newPass now).2.2 = db.map (touchRow uid now) ∧
    ((get_user_sandbox o db uid newPass now).2.2).map (fun x => x.sandbox_id) =
      db.map (fun x => x.sandbox_id) ∧
    ((get_user_sandbox o db uid newPass now).2.2).map (fun x => x.sandbox_pass) =
      db.map (fun x => x.sandbox_pass) := by
  have htr : truthy r.sandbox_id = true := by
    rw [hsid]; simp [truthy, hne]
  have hget : r.sandbox_id.getD "" = sid := by rw [hsid]; rfl
  refine ⟨?_, ?_, ?_, ?_, ?_⟩ <;>
    simp [get_user_sandbox, hr, htr, hget, get_or_start_sandbox, hfetch,
          hrun, needsStart, touchRow_sandbox_id, touchRow_sandbox_pass]

/-- C7 witness. -/
theorem resolve_running_only_touches_witness :
    (([⟨"u2", some "S2", "pw2", "5"⟩] : List Row).filter
        (fun x => x.user_id == "u2")).head? = some ⟨"u2", some "S2", "pw2", "5"⟩ ∧
    (get_user_sandbox
      (Provider.mk (fun _ => .ok ⟨"S2", WState.running⟩)
        (fun s => .error (Err.notFound s)) (fun _ => .ok ())
        (fun _ => .error (Err.providerError "no"))
        (fun _ _ => .ok ()) (fun _ _ _ => .ok ()))
      [⟨"u2", some "S2", "pw2", "5"⟩] "u2" "np" "9").1 =
        .ok (⟨"S2", WState.running⟩, "pw2") := by
  refine ⟨rfl, ?_⟩
  exact (resolve_running_only_touches
    (Provider.mk (fun _ => .ok ⟨"S2", WState.running⟩)
      (fun s => .error (Err.notFound s)) (fun _ => .ok ())
      (fun _ => .error (Err.providerError "no"))
      (fun _ _ => .ok ()) (fun _ _ _ => .ok ()))
    [⟨"u2", some "S2", "pw2", "5"⟩] "u2" "9" "np" ⟨"u2", some "S2", "pw2", "5"⟩
    "S2" ⟨"S2", WState.running⟩ rfl rfl (by decide) rfl rfl).1

/-- C5: for a user whose recorded sandbox the provider reports as stopped
or archived, get_user_sandbox issues exactly one start, fetches twice (the
initial fetch and the confirming re-fetch), bootstraps the supervisord
session once, creates no sandbox and performs no upsert; the final table
is the original with only last_active_at refreshed, so sandbox_id is
unchanged for every row. -/
theorem resolve_stopped_starts_once
    (o : Provider) (db : List Row) (uid now newPass : String) (r : Row)
    (sid : String) (sb sb2 : RSandbox)
    (hr : (db.filter (fun x => x.user_id == uid)).head? = some r)
    (hsid : r.sandbox_id = some sid)
    (hne : sid ≠ "")
    (hfetch : o.fetch sid = .ok sb)
    (hstate : sb.state = WState.stopped ∨ sb.state = WState.archived)
    (hstart : o.startRes sid = .ok ())
    (hrefetch : o.refetch sid = .ok sb2)
    (hsess : o.createSessionRes sb2.id sessionName = .ok ())
    (hexec : o.execRes sb2.id sessionName supervisordCommand = .ok ()) :
    (get_user_sandbox o db uid newPass now).1 = .ok (sb2, r.sandbox_pass) ∧
    countEv isStartEv (get_user_sandbox o db uid newPass now).2.1 = 1 ∧
    countEv isFetchEv (get_user_sandbox o db uid newPass now).2.1 = 2 ∧
    countEv isCreateEv (get_user_sandbox o db uid newPass now).2.1 = 0 ∧
    countEv isUpsertEv (get_user_sandbox o db uid newPass now).2.1 = 0 ∧
    countEv isBootstrapEv (get_user_sandbox o db uid newPass now).2.1 = 1 ∧
    (get_user_sandbox o db uid newPass now).2.2 = db.map (touchRow uid now) ∧
    ((get_user_sandbox o db uid newPass now).2.2).map (fun x => x.sandbox_id) =
      db.map (fun x => x.sandbox_id) := by
  have htr : truthy r.sandbox_id = true := by
    rw [hsid]; simp [truthy, hne]
  have hget : r.sandbox_id.getD "" = sid := by rw [hsid]; rfl
  have hns : needsStart sb.state = true := by
    rcases hstate with h | h <;> rw [h] <;> rfl
  refine ⟨?_, ?_, ?_, ?_, ?_, ?_, ?_, ?_⟩ <;>
    simp [get_user_sandbox, hr, htr, hget, get_or_start_sandbox, hfetch, hns,
          hstart, hrefetch, start_supervisord_session, hsess, hexec,
          countEv, isStartEv, isFetchEv, isCreateEv, isUpsertEv, isBootstrapEv,
          touchRow_sandbox_id]

/-- C5 witness. -/
theorem resolve_stopped_starts_once_witness :
    (([⟨"u3", some "S3", "pw3", "5"⟩] : List Row).filter
        (fun x => x.user_id == "u3")).head? = some ⟨"u3", some "S3", "pw3", "5"⟩ ∧
    ((⟨"S3", WState.archived⟩ : RSandbox).state = WState.stopped ∨
      (⟨"S3", WState.archived⟩ : RSandbox).state = WState.archived) ∧
    (get_user_sandbox
      (Provider.mk (fun _ => .ok ⟨"S3", WState.archived⟩)
        (fun _ => .ok ⟨"S3", WState.running⟩) (fun _ => .ok ())
        (fun _ => .error (Err.providerError "no"))
        (fun _ _ => .ok ()) (fun _ _ _ => .ok ()))
      [⟨"u3", some "S3", "pw3", "5"⟩] "u3" "np" "9").1 =
        .ok (⟨"S3", WState.running⟩, "pw3") := by
  refine ⟨rfl, Or.inr rfl, ?_⟩
  exact (resolve_stopped_starts_once
    (Provider.mk (fun _ => .ok ⟨"S3", WState.archived⟩)
      (fun _ => .ok ⟨"S3", WState.running⟩) (fun _ => .ok ())
      (fun _ => .error (Err.providerError "no"))
      (fun _ _ => .ok ()) (fun _ _ _ => .ok ()))
    [⟨"u3", some "S3", "pw3", "5"⟩] "u3" "9" "np" ⟨"u3", some "S3", "pw3", "5"⟩
    "S3" ⟨"S3", WState.archived⟩ ⟨"S3", WState.running⟩
    rfl rfl (by decide) rfl (Or.inr rfl) rfl rfl rfl rfl).1

/-- C6: for a user whose recorded sandbox the fetch reports as not found,
get_user_sandbox does not propagate the not-found error: it falls through
to the creation path, creates a new remote sandbox, returns it with the
fresh password, and the upsert overwrites the sandbox_id of every row of
that user to the new sandbox's id. -/
theorem resolve_notfound_recreates
    (o : Provider) (db : List Row) (uid now newPass : String) (r : Row)
    (sid : String) (sb : RSandbox)
    (hr : (db.filter (fun x => x.user_id == uid)).head? = some r)
    (hsid : r.sandbox_id = some sid)
    (hne : sid ≠ "")
    (hfetch : o.fetch sid = .error (Err.notFound sid))
    (hcreate : o.createRes (createParamsFor newPass) = .ok sb)
    (hsess : o.createSessionRes sb.id sessionName = .ok ())
    (hexec : o.execRes sb.id sessionName supervisordCommand = .ok ()) :
    (get_user_sandbox o db uid newPass now).1 = .ok (sb, newPass) ∧
    Ev.create (createParamsFor newPass) ∈ (get_user_sandbox o db uid newPass now).2.1 ∧
    (get_user_sandbox o db uid newPass now).2.2 =
      upsertDb db ⟨uid, some sb.id, newPass, now⟩ ∧
    (∀ x ∈ (get_user_sandbox o db uid newPass now).2.2,
      x.user_id = uid → x.sandbox_id = some sb.id) := by
  have htr : truthy r.sandbox_id = true := by
    rw [hsid]; simp [truthy, hne]
  have hget : r.sandbox_id.getD "" = sid := by rw [hsid]; rfl
  have hmem : r ∈ db := by
    have h1 : r ∈ db.filter (fun x => x.user_id == uid) :=
      List.mem_of_mem_head? hr
    exact List.mem_of_mem_filter h1
  have hany : db.any (fun x => x.user_id == uid) = true := by
    have h1 : r ∈ db.filter (fun x => x.user_id == uid) :=
      List.mem_of_mem_head? hr
    have h2 : (r.user_id == uid) = true := (List.mem_filter.mp h1).2
    exact List.any_eq_true.mpr ⟨r, hmem, h2⟩
  refine ⟨?_, ?_, ?_, ?_⟩
  · simp [get_user_sandbox, hr, htr, hget, get_or_start_sandbox, hfetch,
          createPathFor, create_sandbox, hcreate,
          start_supervisord_session, hsess, hexec]
  · simp [get_user_sandbox, hr, htr, hget, get_or_start_sandbox, hfetch,
          createPathFor, create_sandbox, hcreate,
          start_supervisord_session, hsess, hexec]
  · simp [get_user_sandbox, hr, htr, hget, get_or_start_sandbox, hfetch,
          createPathFor, create_sandbox, hcreate,
          start_supervisord_session, hsess, hexec]
  · intro x hx hxu
    have hdb : (get_user_sandbox o db uid newPass now).2.2 =
        db.map (fun y => if y.user_id = uid then
          (⟨uid, some sb.id, newPass, now⟩ : Row) else y) := by
      simp [get_user_sandbox, hr, htr, hget, get_or_start_sandbox, hfetch,
            createPathFor, create_sandbox, hcreate,
            start_supervisord_session, hsess, hexec, upsertDb, hany]
    rw [hdb] at hx
    rcases List.mem_map.mp hx with ⟨y, _, hy⟩
    by_cases hcase : y.user_id = uid
    · rw [if_pos hcase] at hy
      rw [← hy]
    · rw [if_neg hcase] at hy
      rw [← hy] at hxu
      exact absurd hxu hcase

/-- C6 witness. -/
theorem resolve_notfound_recreates_witness :
    (([⟨"u4", some "S4", "pw4", "5"⟩] : List Row).filter
        (fun x => x.user_id == "u4")).head? = some ⟨"u4", some "S4", "pw4", "5"⟩ ∧
    (Provider.mk (fun s => .error (Err.notFound s))
      (fun s => .error (Err.notFound s)) (fun _ => .ok ())
      (fun _ => .ok ⟨"S5", WState.running⟩)
      (fun _ _ => .ok ()) (fun _ _ _ => .ok ())).fetch "S4" =
        .error (Err.notFound "S4") ∧
    (get_user_sandbox
      (Provider.mk (fun s => .error (Err.notFound s))
        (fun s => .error (Err.notFound s)) (fun _ => .ok ())
        (fun _ => .ok ⟨"S5", WState.running⟩)
        (fun _ _ => .ok ()) (fun _ _ _ => .ok ()))
      [⟨"u4", some "S4", "pw4", "5"⟩] "u4" "np4" "9").1 =
        .ok (⟨"S5", WState.running⟩, "np4") := by
  refine ⟨rfl, rfl, ?_⟩
  exact (resolve_notfound_recreates
    (Provider.mk (fun s => .error (Err.notFound s))
      (fun s => .error (Err.notFound s)) (fun _ => .ok ())
      (fun _ => .ok ⟨"S5", WState.running⟩)
      (fun _ _ => .ok ()) (fun _ _ _ => .ok ()))
    [⟨"u4", some "S4", "pw4", "5"⟩] "u4" "9" "np4" ⟨"u4", some "S4", "pw4", "5"⟩
    "S4" ⟨"S5", WState.running⟩ rfl rfl (by decide) rfl rfl rfl rfl).1

/-- C10: when, for a user with no directory record, the remote create
succeeds but the session bootstrap fails, get_user_sandbox propagates the
error, the table is unchanged (the upsert runs only after both create and
bootstrap succeed), no upsert call is issued, yet the create call was
issued — the new sandbox has no directory entry; and an immediate retry
(same empty lookup) against a provider that then succeeds performs another
create and records the second sandbox. -/
theorem resolve_create_bootstrap_failure_no_upsert
    (o o2 : Provider) (db : List Row) (uid newPass newPass2 now now2 : String)
    (sb sb2 : RSandbox) (e : Err)
    (hnone : db.filter (fun r => r.user_id == uid) = [])
    (hcreate : o.createRes (createParamsFor newPass) = .ok sb)
    (hsess : o.createSessionRes sb.id sessionName = .error e)
    (hcreate2 : o2.createRes (createParamsFor newPass2) = .ok sb2)
    (hsess2 : o2.createSessionRes sb2.id sessionName = .ok ())
    (hexec2 : o2.execRes sb2.id sessionName supervisordCommand = .ok ()) :
    (get_user_sandbox o db uid newPass now).1 = .error e ∧
    (get_user_sandbox o db uid newPass now).2.2 = db ∧
    countEv isUpsertEv (get_user_sandbox o db uid newPass now).2.1 = 0 ∧
    countEv isCreateEv (get_user_sandbox o db uid newPass now).2.1 = 1 ∧
    (get_user_sandbox o2 db uid newPass2 now2).1 = .ok (sb2, newPass2) ∧
    countEv isCreateEv (get_user_sandbox o2 db uid newPass2 now2).2.1 = 1 ∧
    (get_user_sandbox o2 db uid newPass2 now2).2.2 =
      upsertDb db ⟨uid, some sb2.id, newPass2, now2⟩ := by
  refine ⟨?_, ?_, ?_, ?_, ?_, ?_, ?_⟩ <;>
    simp [get_user_sandbox, hnone, createPathFor, create_sandbox, hcreate,
          hcreate2, start_supervisord_session, hsess, hsess2, hexec2,
          countEv, isUpsertEv, isCreateEv]

/-- C10 witness. -/
theorem resolve_create_bootstrap_failure_no_upsert_witness :
    ([] : List Row).filter (fun r => r.user_id == "u5") = [] ∧
    (Provider.mk (fun s => .error (Err.notFound s)) (fun s => .error (Err.notFound s))
      (fun _ => .ok ()) (fun _ => .ok ⟨"S6", WState.running⟩)
      (fun _ _ => .error (Err.providerError "boom")) (fun _ _ _ => .ok ())).createSessionRes
        "S6" sessionName = .error (Err.providerError "boom") ∧
    (get_user_sandbox
      (Provider.mk (fun s => .error (Err.notFound s)) (fun s => .error (Err.notFound s))
        (fun _ => .ok ()) (fun _ => .ok ⟨"S6", WState.running⟩)
        (fun _ _ => .error (Err.providerError "boom")) (fun _ _ _ => .ok ()))
      [] "u5" "np5" "9").1 = .error (Err.providerError "boom") := by
  refine ⟨rfl, rfl, ?_⟩
  exact (resolve_create_bootstrap_failure_no_upsert
    (Provider.mk (fun s => .error (Err.notFound s)) (fun s => .error (Err.notFound s))
      (fun _ => .ok ()) (fun _ => .ok ⟨"S6", WState.running⟩)
      (fun _ _ => .error (Err.providerError "boom")) (fun _ _ _ => .ok ()))
    (Provider.mk (fun s => .error (Err.notFound s)) (fun s => .error (Err.notFound s))
      (fun _ => .ok ()) (fun _ => .ok ⟨"S7", WState.running⟩)
      (fun _ _ => .ok ()) (fun _ _ _ => .ok ()))
    [] "u5" "np5" "np6" "9" "10" ⟨"S6", WState.running⟩ ⟨"S7", WState.running⟩
    (Err.providerError "boom") rfl rfl rfl rfl rfl rfl).1

/-- C1 counterexample: user u has a record pointing at sandbox S which the
provider reports as stopped; the start call fails.  The claim says this
start failure is surfaced as an error and in no case converted into
allocating a new sandbox.  In the code the bare except around
get_or_start_sandbox catches the start failure and falls through to the
creation path: the call returns successfully with a freshly created
sandbox S2 and no error, and a create call appears in the trace. -/
theorem start_failure_allocates_new_sandbox :
    (get_user_sandbox
      (Provider.mk (fun _ => .ok ⟨"S", WState.stopped⟩)
        (fun s => .error (Err.notFound s))
        (fun _ => .error (Err.providerError "start failed"))
        (fun _ => .ok ⟨"S2", WState.running⟩)
        (fun _ _ => .ok ()) (fun _ _ _ => .ok ()))
      [⟨"u", some "S", "pw", "5"⟩] "u" "np" "9").1 =
        .ok (⟨"S2", WState.running⟩, "np") ∧
    countEv isCreateEv
      (get_user_sandbox
        (Provider.mk (fun _ => .ok ⟨"S", WState.stopped⟩)
          (fun s => .error (Err.notFound s))
          (fun _ => .error (Err.providerError "start failed"))
          (fun _ => .ok ⟨"S2", WState.running⟩)
          (fun _ _ => .ok ()) (fun _ _ _ => .ok ()))
        [⟨"u", some "S", "pw", "5"⟩] "u" "np" "9").2.1 = 1 ∧
    (get_user_sandbox
      (Provider.mk (fun _ => .ok ⟨"S", WState.stopped⟩)
        (fun s => .error (Err.notFound s))
        (fun _ => .error (Err.providerError "start failed"))
        (fun _ => .ok ⟨"S2", WState.running⟩)
        (fun _ _ => .ok ()) (fun _ _ _ => .ok ()))
      [⟨"u", some "S", "pw", "5"⟩] "u" "np" "9").2.2 =
        [⟨"u", some "S2", "np", "9"⟩] := by
  refine ⟨rfl, rfl, rfl⟩

/-- C1 amended: on the existing-record path, ANY failure of
get_or_start_sandbox (fetch, start, re-fetch or bootstrap — not only a
not-found fetch) falls through to the creation path, behaving exactly as
if no record existed; errors are surfaced only from the creation path
itself: a failure of the create call or of the bootstrap of the newly
created sandbox propagates to the caller unchanged. -/
theorem resolve_failure_policy
    (o : Provider) (db : List Row) (uid newPass now : String) (r : Row) (e : Err)
    (hr : (db.filter (fun x => x.user_id == uid)).head? = some r)
    (ht : truthy r.sandbox_id = true)
    (hfail : (get_or_start_sandbox o (r.sandbox_id.getD "")).1 = .error e) :
    get_user_sandbox o db uid newPass now =
      createPathFor o db uid newPass now
        (get_or_start_sandbox o (r.sandbox_id.getD "")).2 ∧
    (∀ e2, (create_sandbox o newPass true).1 = .error e2 →
      (get_user_sandbox o db uid newPass now).1 = .error e2) := by
  have hmain : get_user_sandbox o db uid newPass now =
      createPathFor o db uid newPass now
        (get_or_start_sandbox o (r.sandbox_id.getD "")).2 := by
    unfold get_user_sandbox
    rw [hr]
    simp only [ht, if_true]
    rcases hg : get_or_start_sandbox o (r.sandbox_id.getD "") with ⟨res, tr⟩
    rcases res with e' | sbv
    · rfl
    · rw [hg] at hfail
      exact absurd hfail (by simp)
  refine ⟨hmain, ?_⟩
  intro e2 hc
  rw [hmain]
  unfold createPathFor
  rcases hcs : create_sandbox o newPass true with ⟨cres, ctr⟩
  rcases cres with ce | csb
  · rw [hcs] at hc
    simp only at hc
    cases hc
    rfl
  · rw [hcs] at hc
    exact absurd hc (by simp)

/-- C1 amended witness. -/
theorem resolve_failure_policy_witness :
    (([⟨"u", some "S", "pw", "5"⟩] : List Row).filter
        (fun x => x.user_id == "u")).head? = some ⟨"u", some "S", "pw", "5"⟩ ∧
    truthy (some "S") = true ∧
    (get_or_start_sandbox
      (Provider.mk (fun _ => .ok ⟨"S", WState.stopped⟩)
        (fun s => .error (Err.notFound s))
        (fun _ => .error (Err.providerError "start failed"))
        (fun _ => .ok ⟨"S2", WState.running⟩)
        (fun _ _ => .ok ()) (fun _ _ _ => .ok ())) "S").1 =
      .error (Err.providerError "start failed") ∧
    get_user_sandbox
      (Provider.mk (fun _ => .ok ⟨"S", WState.stopped⟩)
        (fun s => .error (Err.notFound s))
        (fun _ => .error (Err.providerError "start failed"))
        (fun _ => .ok ⟨"S2", WState.running⟩)
        (fun _ _ => .ok ()) (fun _ _ _ => .ok ()))
      [⟨"u", some "S", "pw", "5"⟩] "u" "np" "9" =
      createPathFor
        (Provider.mk (fun _ => .ok ⟨"S", WState.stopped⟩)
          (fun s => .error (Err.notFound s))
          (fun _ => .error (Err.providerError "start failed"))
          (fun _ => .ok ⟨"S2", WState.running⟩)
          (fun _ _ => .ok ()) (fun _ _ _ => .ok ()))
        [⟨"u", some "S", "pw", "5"⟩] "u" "np" "9"
        (get_or_start_sandbox
          (Provider.mk (fun _ => .ok ⟨"S", WState.stopped⟩)
            (fun s => .error (Err.notFound s))
            (fun _ => .error (Err.providerError "start failed"))
            (fun _ => .ok ⟨"S2", WState.running⟩)
            (fun _ _ => .ok ()) (fun _ _ _ => .ok ())) "S").2 := by
  refine ⟨rfl, rfl, rfl, ?_⟩
  exact (resolve_failure_policy
    (Provider.mk (fun _ => .ok ⟨"S", WState.stopped⟩)
      (fun s => .error (Err.notFound s))
      (fun _ => .error (Err.providerError "start failed"))
      (fun _ => .ok ⟨"S2", WState.running⟩)
      (fun _ _ => .ok ()) (fun _ _ _ => .ok ()))
    [⟨"u", some "S", "pw", "5"⟩] "u" "np" "9" ⟨"u", some "S", "pw", "5"⟩
    (Err.providerError "start failed") rfl rfl rfl).1

/-- Helper: with every truthy row parseable, the user_ids deleted by the
sweep loop are exactly those of the rows with a truthy sandbox_id, a stale
timestamp and a successful remote deletion. -/
theorem cleanupLoop_deleted_eq (delOk : String → Bool) (cutoff : Int) :
    ∀ db : List Row,
    (∀ r ∈ db, truthy r.sandbox_id = true →
      (fromisoformat r.last_active_at).isSome = true) →
    (cleanupLoop delOk cutoff db).deleted =
      (db.filter (fun r => truthy r.sandbox_id && staleAt cutoff r &&
        delOk (r.sandbox_id.getD ""))).map (fun r => r.user_id)
  | [], _ => rfl
  | r :: rs, h => by
    have hrs : ∀ x ∈ rs, truthy x.sandbox_id = true →
        (fromisoformat x.last_active_at).isSome = true :=
      fun x hx => h x (List.mem_cons_of_mem r hx)
    have ih := cleanupLoop_deleted_eq delOk cutoff rs hrs
    cases htr : truthy r.sandbox_id with
    | false => simp [cleanupLoop, htr, ih]
    | true =>
      have hsome := h r (List.mem_cons_self r rs) htr
      rcases hp : fromisoformat r.last_active_at with _ | t
      · rw [hp] at hsome
        simp at hsome
      · by_cases hlt : t < cutoff
        · cases hdel : delOk (r.sandbox_id.getD "") with
          | true => simp [cleanupLoop, htr, hp, hlt, staleAt, hdel, ih]
          | false => simp [cleanupLoop, htr, hp, hlt, staleAt, hdel, ih]
        · simp [cleanupLoop, htr, hp, hlt, staleAt, ih]

/-- Helper: with every truthy row parseable, the loop issues a remote
deletion attempt for every truthy stale row. -/
theorem cleanupLoop_issues_remote (delOk : String → Bool) (cutoff : Int) :
    ∀ db : List Row,
    (∀ r ∈ db, truthy r.sandbox_id = true →
      (fromisoformat r.last_active_at).isSome = true) →
    ∀ r ∈ db, truthy r.sandbox_id = true → staleAt cutoff r = true →
    Ev.deleteRemote (r.sandbox_id.getD "") (delOk (r.sandbox_id.getD "")) ∈
      (cleanupLoop delOk cutoff db).trace
  | [], _, r, hr => absurd hr (List.not_mem_nil r)
  | r0 :: rs, h, r, hr => by
    intro htr hst
    have hrs : ∀ x ∈ rs, truthy x.sandbox_id = true →
        (fromisoformat x.last_active_at).isSome = true :=
      fun x hx => h x (List.mem_cons_of_mem r0 hx)
    rcases List.mem_cons.mp hr with he | hm
    · subst he
      have hsome := h r (List.mem_cons_self r rs) htr
      rcases hp : fromisoformat r.last_active_at with _ | t
      · rw [hp] at hsome
        simp at hsome
      · have hlt : t < cutoff := by
          unfold staleAt at hst
          rw [hp] at hst
          exact of_decide_eq_true hst
        cases hdel : delOk (r.sandbox_id.getD "") with
        | true => simp [cleanupLoop, htr, hp, hlt, hdel]
        | false => simp [cleanupLoop, htr, hp, hlt, hdel]
    · have ih := cleanupLoop_issues_remote delOk cutoff rs hrs r hm htr hst
      cases htr0 : truthy r0.sandbox_id with
      | false => simpa [cleanupLoop, htr0] using ih
      | true =>
        have hsome0 := h r0 (List.mem_cons_self r0 rs) htr0
        rcases hp0 : fromisoformat r0.last_active_at with _ | t0
        · rw [hp0] at hsome0
          simp at hsome0
        · by_cases hlt0 : t0 < cutoff
          · cases hdel0 : delOk (r0.sandbox_id.getD "") with
            | true =>
              simp [cleanupLoop, htr0, hp0, hlt0, hdel0]
              exact Or.inr ih
            | false =>
              simp [cleanupLoop, htr0, hp0, hlt0, hdel0]
              exact Or.inr ih
          · simpa [cleanupLoop, htr0, hp0, hlt0] using ih

/-- C3: with every truthy row carrying a parseable timestamp, the sweep
deletes exactly the directory records whose rows have a truthy sandbox_id,
a last_active_at strictly older than now minus the retention threshold and
a successful remote deletion, and it issues a remote deletion attempt for
every truthy stale row — so one failed remote deletion does not stop the
remaining records being processed, and rows with no sandbox_id or a fresh
timestamp are never deleted, being outside the filter. -/
theorem sweep_reclaims_exactly_stale
    (delOk : String → Bool) (now max_inactive_days : Int) (db : List Row)
    (h : ∀ r ∈ db, truthy r.sandbox_id = true →
      (fromisoformat r.last_active_at).isSome = true) :
    (cleanup_inactive_user_sandboxes delOk now max_inactive_days db).1 =
      (db.filter (fun r => truthy r.sandbox_id &&
        staleAt (now - secondsPerDay * max_inactive_days) r &&
        delOk (r.sandbox_id.getD ""))).map (fun r => r.user_id) ∧
    ∀ r ∈ db, truthy r.sandbox_id = true →
      staleAt (now - secondsPerDay * max_inactive_days) r = true →
      Ev.deleteRemote (r.sandbox_id.getD "") (delOk (r.sandbox_id.getD "")) ∈
        (cleanup_inactive_user_sandboxes delOk now max_inactive_days db).2 := by
  constructor
  · exact cleanupLoop_deleted_eq delOk (now - secondsPerDay * max_inactive_days) db h
  · exact cleanupLoop_issues_remote delOk (now - secondsPerDay * max_inactive_days) db h

/-- C3 witness: four rows — one stale whose remote deletion fails, one
stale reclaimable after it, one fresh, one with no sandbox_id; only the
second is deleted. -/
theorem sweep_reclaims_exactly_stale_witness :
    (∀ r ∈ ([⟨"a", some "SA", "p", "1"⟩, ⟨"b", some "SB", "p", "1"⟩,
             ⟨"c", some "SC", "p", "999999999"⟩, ⟨"d", none, "p", "1"⟩] : List Row),
      truthy r.sandbox_id = true →
      (fromisoformat r.last_active_at).isSome = true) ∧
    (cleanup_inactive_user_sandboxes (fun s => !(s == "SA")) 1000000 7
      [⟨"a", some "SA", "p", "1"⟩, ⟨"b", some "SB", "p", "1"⟩,
       ⟨"c", some "SC", "p", "999999999"⟩, ⟨"d", none, "p", "1"⟩]).1 = ["b"] := by
  constructor
  · decide
  · have h := (sweep_reclaims_exactly_stale (fun s => !(s == "SA")) 1000000 7
      [⟨"a", some "SA", "p", "1"⟩, ⟨"b", some "SB", "p", "1"⟩,
       ⟨"c", some "SC", "p", "999999999"⟩, ⟨"d", none, "p", "1"⟩] (by decide)).1
    rw [h]
    decide

/-- C4: in every sweep trace, each directory-record deletion immediately
follows a completed, successful remote-sandbox deletion: the remote
deletion is issued and finishes strictly before the record deletion is
issued, and after a failed remote deletion no record deletion occurs, so a
directory entry never outlives its remote sandbox's deletion
confirmation.  The property holds for every table, oracle and cutoff, with
no assumption on timestamps. -/
theorem sweep_remote_delete_before_record (delOk : String → Bool) (cutoff : Int) :
    ∀ db : List Row, guardedFrom false (cleanupLoop delOk cutoff db).trace = true
  | [] => rfl
  | r :: rs => by
    have ih := sweep_remote_delete_before_record delOk cutoff rs
    cases htr : truthy r.sandbox_id with
    | false => simpa [cleanupLoop, htr] using ih
    | true =>
      rcases hp : fromisoformat r.last_active_at with _ | t
      · simp [cleanupLoop, htr, hp, guardedFrom]
      · by_cases hlt : t < cutoff
        · cases hdel : delOk (r.sandbox_id.getD "") with
          | true => simpa [cleanupLoop, htr, hp, hlt, hdel, guardedFrom] using ih
          | false => simpa [cleanupLoop, htr, hp, hlt, hdel, guardedFrom] using ih
        · simpa [cleanupLoop, htr, hp, hlt] using ih

/-- C4 witness (the theorem quantifies over a hypothesis-free statement,
but it is stated with binders, so here it is applied at a concrete table
with one reclaimable row and one whose remote deletion fails). -/
theorem sweep_remote_delete_before_record_witness :
    guardedFrom false (cleanupLoop (fun s => !(s == "SA")) 100
      [⟨"a", some "SA", "p", "1"⟩, ⟨"b", some "SB", "p", "1"⟩]).trace = true :=
  sweep_remote_delete_before_record (fun s => !(s == "SA")) 100
    [⟨"a", some "SA", "p", "1"⟩, ⟨"b", some "SB", "p", "1"⟩]

/-- Helper: a parse failure on a truthy row ends the loop with exactly the
output produced for the prefix before it, with the escaped flag set. -/
theorem cleanupLoop_stops_at_bad (delOk : String → Bool) (cutoff : Int)
    (bad : Row) (post : List Row)
    (htr : truthy bad.sandbox_id = true)
    (hp : fromisoformat bad.last_active_at = none) :
    ∀ pre : List Row,
    (∀ r ∈ pre, truthy r.sandbox_id = true →
      (fromisoformat r.last_active_at).isSome = true) →
    cleanupLoop delOk cutoff (pre ++ bad :: post) =
      ⟨(cleanupLoop delOk cutoff pre).deleted,
       (cleanupLoop delOk cutoff pre).trace, true⟩
  | [], _ => by simp [cleanupLoop, htr, hp]
  | r :: pre', h => by
    have hpre : ∀ x ∈ pre', truthy x.sandbox_id = true →
        (fromisoformat x.last_active_at).isSome = true :=
      fun x hx => h x (List.mem_cons_of_mem r hx)
    have ih := cleanupLoop_stops_at_bad delOk cutoff bad post htr hp pre' hpre
    cases htr0 : truthy r.sandbox_id with
    | false => simpa [cleanupLoop, htr0] using ih
    | true =>
      have hsome := h r (List.mem_cons_self r pre') htr0
      rcases hp0 : fromisoformat r.last_active_at with _ | t
      · rw [hp0] at hsome
        simp at hsome
      · by_cases hlt : t < cutoff
        · cases hdel : delOk (r.sandbox_id.getD "") with
          | true => simp [cleanupLoop, htr0, hp0, hlt, hdel, ih]
          | false => simp [cleanupLoop, htr0, hp0, hlt, hdel, ih]
        · simpa [cleanupLoop, htr0, hp0, hlt] using ih

/-- C9: when an enumerated row with a truthy sandbox_id has an absent or
unparseable last_active_at, the sweep stops there: the whole call returns
exactly what it returns on the prefix before that row — no later row is
examined or reclaimed — the exception escapes the per-record handler (the
escaped flag of the loop), and the caller sees no error, since the
function's outer handler swallows it and the result carries no error
channel. -/
theorem sweep_parse_error_aborts
    (delOk : String → Bool) (now max_inactive_days : Int)
    (pre : List Row) (bad : Row) (post : List Row)
    (h : ∀ r ∈ pre, truthy r.sandbox_id = true →
      (fromisoformat r.last_active_at).isSome = true)
    (htr : truthy bad.sandbox_id = true)
    (hp : fromisoformat bad.last_active_at = none) :
    cleanup_inactive_user_sandboxes delOk now max_inactive_days
        (pre ++ bad :: post) =
      cleanup_inactive_user_sandboxes delOk now max_inactive_days pre ∧
    (cleanupLoop delOk (now - secondsPerDay * max_inactive_days)
        (pre ++ bad :: post)).escaped = true := by
  have hstop := cleanupLoop_stops_at_bad delOk
    (now - secondsPerDay * max_inactive_days) bad post htr hp pre h
  constructor
  · unfold cleanup_inactive_user_sandboxes
    rw [hstop]
  · rw [hstop]

/-- C9 witness: a good stale row, then a row with timestamp "oops", then
another stale row; the sweep reclaims only the first and reports that the
exception escaped the loop. -/
theorem sweep_parse_error_aborts_witness :
    truthy (some "SB") = true ∧
    fromisoformat "oops" = none ∧
    cleanup_inactive_user_sandboxes (fun _ => true) 1000000 7
        ([⟨"a", some "SA", "p", "1"⟩] ++
          (⟨"b", some "SB", "p", "oops"⟩ : Row) :: [⟨"c", some "SC", "p", "2"⟩]) =
      cleanup_inactive_user_sandboxes (fun _ => true) 1000000 7
        [⟨"a", some "SA", "p", "1"⟩] := by
  refine ⟨by decide, by decide, ?_⟩
  exact (sweep_parse_error_aborts (fun _ => true) 1000000 7
    [⟨"a", some "SA", "p", "1"⟩] ⟨"b", some "SB", "p", "oops"⟩
    [⟨"c", some "SC", "p", "2"⟩] (by decide) (by decide) (by decide)).1
